import Mathlib

/-!
Verification development for the `ecommerce-plugin-paygate` repository.

The Python sources under `paygate/` are shallowly embedded as executable Lean
definitions: pure helpers become Lean functions, Django view handlers become
functions from an explicit environment (configuration, basket store, gateway
behaviour) to an explicit effects record (HTTP outcome, orders created,
gateway calls made, audit records written).  Python exceptions are modelled by
an `Except PyExn` result; Python truthiness is made explicit where the source
relies on it.
-/

namespace Paygate

/-- Scalar JSON values (the callback payloads and checkout responses in this
repository are flat objects of scalars). -/
inductive JVal where
  | str (s : String)
  | num (n : Int)
  | bool (b : Bool)
  | null
deriving DecidableEq, Repr

/-- A flat JSON object, as produced by `json.loads` on a callback body. -/
abbrev JObj := List (String × JVal)

/-- `dict.get(k)` — first binding wins (Python dicts have unique keys). -/
def jGet (o : JObj) (k : String) : Option JVal :=
  match o with
  | [] => none
  | (k', v) :: rest => if k' = k then some v else jGet rest k

/-- `dict.get(k, default)`. -/
def jGetD (o : JObj) (k : String) (d : JVal) : JVal :=
  match jGet o k with
  | some v => v
  | none => d

/-- Python truthiness of a scalar JSON value. -/
def jTruthy : JVal → Bool
  | .str s => s ≠ ""
  | .num n => n ≠ 0
  | .bool b => b
  | .null => false

/-- Truthiness of `dict.get(k)` (`None` when the key is absent is falsy). -/
def jOptTruthy : Option JVal → Bool
  | some v => jTruthy v
  | none => false

/-- A gateway-side transaction row as returned by
`BackOfficeSearchTransactions`; every field is read with `.get`, so each is
an `Option` (`None` when absent). -/
structure Txn where
  MERCHANT_CODE : Option String := none
  STATUS_CODE : Option String := none
  PAYMENT_REF : Option String := none
  PAYMENT_AMOUNT : Option String := none
  TRANSACTION_ID : Option String := none
  CARD_MASKED_PAN : Option String := none
  PAYMENT_TYPE_CODE : Option String := none
deriving DecidableEq, Repr

/-- A JSON payload returned by a gateway endpoint: either a flat object
(Checkout, MarkTestPaymentAsPaid) or an array of transaction rows
(BackOfficeSearchTransactions).  `.obj []` doubles as the literal `{}`. -/
inductive ApiPayload where
  | obj (o : JObj)
  | rows (ts : List Txn)
deriving DecidableEq, Repr

/-- The `error["response"]` dict built by `PayGate._raise_api_error` when a
response object is at hand: its status code, decoded raw body, and the parsed
payload passed as `response_data`. -/
structure GatewayDetail where
  status_code : Nat
  content : String
  data : Option ApiPayload
deriving DecidableEq, Repr

/-- Python exceptions that the embedded code can raise.  `gatewayError` is
Oscar's `GatewayError` (which subclasses `PaymentError`); its optional
`GatewayDetail` mirrors the `error` dict built by `PayGate._raise_api_error`
(`None` when `_raise_api_error` got no response object). -/
inductive PyExn where
  | gatewayError (message : String) (response : Option GatewayDetail)
  | paymentError
  | typeError (msg : String)
  | attributeError (msg : String)
  | valueError (msg : String)
  | unboundLocalError (name : String)
  | invalidOperation
  | connectionError
  | stopIteration
deriving DecidableEq, Repr

/-! ### String helpers (structural versions of `str.split` and `int(str)`,
so that concrete evaluations reduce in the kernel) -/

/-- Split a character list on a separator character. -/
def splitOnChar (c : Char) : List Char → List (List Char)
  | [] => [[]]
  | x :: xs =>
    let rest := splitOnChar c xs
    if x = c then [] :: rest
    else
      match rest with
      | r :: rs => (x :: r) :: rs
      | [] => [[x]]

/-- Python `s.split(sep)` for a one-character separator. -/
def strSplitOn (s : String) (c : Char) : List String :=
  (splitOnChar c s.data).map String.mk

/-- Decimal digit value of a character, `none` for non-digits. -/
def digitVal (c : Char) : Option Nat :=
  if c.isDigit then some (c.toNat - 48) else none

/-- Accumulate decimal digits into a number, `none` on a non-digit. -/
def digitsToNatAux (acc : Nat) : List Char → Option Nat
  | [] => some acc
  | c :: cs =>
    match digitVal c with
    | some d => digitsToNatAux (acc * 10 + d) cs
    | none => none

/-- Parse a non-empty all-digit string as a natural number. -/
def strToNat? (s : String) : Option Nat :=
  match s.data with
  | [] => none
  | cs => digitsToNatAux 0 cs

/-- `true` exactly when an embedded computation returned without raising. -/
def isOk {α : Type} : Except PyExn α → Bool
  | .ok _ => true
  | .error _ => false

/-! ### `paygate/ip.py` -/

/-- Parse one decimal octet of a dotted-quad IPv4 address (0..255). -/
def parse_octet (s : String) : Option Nat :=
  if s.data.length > 3 then none
  else match strToNat? s with
    | some n => if n ≤ 255 then some n else none
    | none => none

/-- `ipaddress.ip_address` restricted to IPv4 dotted-quad strings, returning
the address as a natural number below 2^32. -/
def parse_ip_address (s : String) : Option Nat :=
  match (strSplitOn s '.').mapM parse_octet with
  | some [a, b, c, d] => some (((a * 256 + b) * 256 + c) * 256 + d)
  | _ => none

/-- `ipaddress.ip_network` restricted to IPv4: either a bare address (treated
as a /32 network) or `base/prefixlen` with the host bits required to be zero
(strict mode, the `ip_network` default). -/
def parse_ip_network (s : String) : Option (Nat × Nat) :=
  match strSplitOn s '/' with
  | [ip] => (parse_ip_address ip).map (fun a => (a, 32))
  | [ip, p] =>
    match parse_ip_address ip, strToNat? p with
    | some base, some plen =>
      if plen ≤ 32 ∧ base % 2 ^ (32 - plen) = 0 then some (base, plen) else none
    | _, _ => none
  | _ => none

/-- The body of the lambda inside `allowed_client_ip`:
`ipaddress.ip_address(client_ip) in ipaddress.ip_network(net)`.
Unparseable strings raise `ValueError`. -/
def ip_in_network_test (client_ip net : String) : Except PyExn Bool :=
  match parse_ip_address client_ip with
  | none => .error (.valueError "does not appear to be an IPv4 address")
  | some ip =>
    match parse_ip_network net with
    | none => .error (.valueError "does not appear to be an IPv4 network")
    | some (base, plen) =>
      .ok (decide (ip / 2 ^ (32 - plen) = base / 2 ^ (32 - plen)))

/-- The Python runtime values flowing through `allowed_client_ip`: `None`,
booleans, strings, and the lazy `filter` object built over the network list. -/
inductive PyV where
  | pyNone
  | pyBool (b : Bool)
  | pyStr (s : String)
  | filterObj (pred : String → Except PyExn Bool) (xs : List String)

/-- Python `x is not None` (a `filter` object or a bool is never `None`). -/
def pyIsNotNone : PyV → PyV
  | .pyNone => .pyBool false
  | _ => .pyBool true

/-- Advancing a `filter` iterator: yield the first element satisfying the
predicate, propagate predicate exceptions, raise `StopIteration` at the end. -/
def filterNext (pred : String → Except PyExn Bool) : List String → Except PyExn PyV
  | [] => .error .stopIteration
  | x :: xs =>
    match pred x with
    | .error e => .error e
    | .ok true => .ok (.pyStr x)
    | .ok false => filterNext pred xs

/-- Python `next(v)`: only iterators support it; on a bool (or any
non-iterator) it raises `TypeError`. -/
def pyNext : PyV → Except PyExn PyV
  | .filterObj pred xs => filterNext pred xs
  | _ => .error (.typeError "bool object is not an iterator")

/-- Python truthiness of a `PyV`. -/
def pyTruthy : PyV → Bool
  | .pyNone => false
  | .pyBool b => b
  | .pyStr s => s ≠ ""
  | .filterObj _ _ => true

/-- `paygate/ip.py` lines 19-28, exactly as written:
`next( filter(lambda net: ip_address(client_ip) in ip_network(net),
allowed_networks) is not None )` — note that the `is not None` comparison is
applied to the `filter` object itself, and `next` is then applied to the
resulting boolean. -/
def allowed_client_ip (client_ip : String) (allowed_networks : List String) :
    Except PyExn PyV :=
  pyNext (pyIsNotNone
    (.filterObj (fun net => ip_in_network_test client_ip net) allowed_networks))

/-- `paygate/ip.py` lines 7-16: first `X-Forwarded-For` entry when the header
is present and non-empty, else `REMOTE_ADDR`. -/
def get_client_ip (x_forwarded_for : Option String) (remote_addr : String) : String :=
  match x_forwarded_for with
  | some s => if s = "" then remote_addr else ((strSplitOn s ',').headD "")
  | none => remote_addr

/-! ### `paygate/processors.py` — data model -/

/-- The per-site PayGate configuration fields used by the embedded methods
(`PayGate.__init__`). -/
structure PayGateConfig where
  access_token : String
  merchant_code : String
deriving DecidableEq, Repr

/-- The audit trail of `record_processor_response` calls: one entry per
persisted `PaymentProcessorResponse`, identified here by a short tag
(the request dump or the error message). -/
abbrev Audit := List String

/-- `PayGate._raise_api_error` (processors.py lines 588-610): persist a
`ProcessorResponseRecord` describing the failure, then raise `GatewayError`
carrying the message and, when a response object is at hand, its status code,
raw body and parsed payload. -/
def raise_api_error (α : Type) (message : String) (response : Option GatewayDetail)
    (recs : Audit) : Audit × Except PyExn α :=
  (recs ++ [message], .error (.gatewayError message response))

/-- The possible outcomes of the HTTP exchange performed inside
`_make_api_json_request`: a timeout (`requests.exceptions.Timeout`), a
connection failure (`requests.exceptions.ConnectionError`, which is *not* a
`Timeout`), or a response with a status code and a body that either parses as
JSON or does not. -/
inductive HttpBehavior where
  | timeout
  | connectionFailure
  | response (status : Nat) (body : Option ApiPayload) (raw : String)
deriving DecidableEq, Repr

/-- `PayGate._make_api_json_request` (processors.py lines 530-586): records
the outgoing request when a basket is given, performs the call, converts a
timeout into `GatewayError("API timeout")`, an unparseable body into
`GatewayError("Could not parse JSON content from response")` and a non-200
status into `GatewayError("Invalid API response")` (each via
`_raise_api_error`, which records before raising); a connection failure is
not caught and propagates as-is; a 200 response with a JSON body returns the
parsed payload. -/
def make_api_json_request (basketRef : Option String) (beh : HttpBehavior)
    (recs : Audit) : Audit × Except PyExn ApiPayload :=
  let recs := if basketRef.isSome then recs ++ ["request"] else recs
  match beh with
  | .timeout => raise_api_error _ "API timeout" none recs
  | .connectionFailure => (recs, .error .connectionError)
  | .response status body raw =>
    match body with
    | none =>
      -- `response.json()` raised; `_raise_api_error(msg, response, {}, basket)`
      raise_api_error _ "Could not parse JSON content from response"
        (some ⟨status, raw, some (.obj [])⟩) recs
    | some d =>
      if status ≠ 200 then
        raise_api_error _ "Invalid API response" (some ⟨status, raw, some d⟩) recs
      else (recs, .ok d)

/-! ### `PayGate.handle_processor_response` (processors.py lines 414-518) -/

/-- The `BackOfficeSearchTransactions` request body built at
processors.py lines 447-463. -/
structure BackSearchRequest where
  ACCESS_TOKEN : String
  MERCHANT_CODE : String
  PAYMENT_REF : String
  STATUS_CODE : String
  SORT_DIRECTION : String
  SORT_COLUMN : String
  NEXT_ROWS : Nat
  OFFSET_ROWS : Nat
deriving DecidableEq, Repr

/-- The search request `handle_processor_response` sends for a basket. -/
def back_search_transactions_data (cfg : PayGateConfig) (order_number : String) :
    BackSearchRequest :=
  { ACCESS_TOKEN := cfg.access_token
    MERCHANT_CODE := cfg.merchant_code
    PAYMENT_REF := order_number
    STATUS_CODE := "C"
    SORT_DIRECTION := "ASC"
    SORT_COLUMN := "PAYMENT_REF"
    NEXT_ROWS := 2
    OFFSET_ROWS := 0 }

/-- A decimal amount: value scaled by a power of ten, mirroring
`decimal.Decimal` on the gateway's `XXXXX.XX` strings. -/
structure Dec where
  units : Nat
  cents : Nat
deriving DecidableEq, Repr

/-- Parse a gateway decimal string of shape `digits` or `digits.digits`. -/
def parse_decimal_string (s : String) : Option Dec :=
  match strSplitOn s '.' with
  | [i] => (strToNat? i).map (fun n => ⟨n, 0⟩)
  | [i, f] =>
    match strToNat? i, strToNat? f with
    | some n, some c => if f.data.length = 2 then some ⟨n, c⟩ else none
    | _, _ => none
  | _ => none

/-- `Decimal(x)` applied to the result of `.get("PAYMENT_AMOUNT")`:
`Decimal(None)` raises `TypeError`; an unparseable string raises
`decimal.InvalidOperation`. -/
def pyDecimal : Option String → Except PyExn Dec
  | none => .error (.typeError "conversion from NoneType to Decimal is not supported")
  | some s =>
    match parse_decimal_string s with
    | some d => .ok d
    | none => .error .invalidOperation

/-- The value returned by a successful `handle_processor_response`
(ecommerce's `HandledProcessorResponse` named tuple). -/
structure HandledProcessorResponse where
  transaction_id : Option String
  total : Dec
  currency : String
  card_number : Option String
  card_type : Option String
deriving DecidableEq, Repr

/-- `PayGate.handle_processor_response`, processors.py lines 447-518, after
the search call: given the rows the gateway returned for
`back_search_transactions_data cfg order_number`, confirm the payment only if
exactly one row was returned and its merchant code, status code and purchase
reference match; otherwise raise `GatewayError`.  On confirmation the amount
string is converted with `Decimal`, and the payment-type code is used as the
masked identifier when `CARD_MASKED_PAN` is absent or empty (Python falsy). -/
def handle_processor_response (cfg : PayGateConfig) (order_number : String)
    (currency : String) (search_response_data : List Txn) :
    Except PyExn HandledProcessorResponse :=
  match search_response_data with
  | [t] =>
    let confirmed_payed_on_paygate :=
      (t.MERCHANT_CODE == some cfg.merchant_code) &&
      (t.STATUS_CODE == some "C") &&
      (t.PAYMENT_REF == some order_number)
    if !confirmed_payed_on_paygate then
      .error (.gatewayError "PayGate couldnt double check if basket has been payed" none)
    else
      match pyDecimal t.PAYMENT_AMOUNT with
      | .error e => .error e
      | .ok total =>
        let card_type := t.PAYMENT_TYPE_CODE
        let card_number :=
          match t.CARD_MASKED_PAN with
          | some s => if s = "" then card_type else some s
          | none => card_type
        .ok { transaction_id := t.TRANSACTION_ID
              total := total
              currency := currency
              card_number := card_number
              card_type := card_type }
  | _ =>
    .error (.gatewayError "PayGate couldnt double check if basket has been payed" none)

/-! ### `PayGate.get_transaction_parameters` — checkout response handling
(processors.py lines 318-393) -/

/-- The parameters `get_transaction_parameters` returns on success. -/
structure TransactionParameters where
  payment_page_url : JVal
  session_token : JVal
deriving DecidableEq, Repr

/-- The message `_parse_checkout_response` raises for a missing field
(the source message additionally embeds a JSON dump of the response). -/
def missing_field_message (field : String) : String :=
  "Could not parse " ++ field ++ " field from response"

/-- The checkout-response handling of `get_transaction_parameters`
(processors.py lines 317-381): each of `URL`, `Success`, `ReturnCode`,
`ShortReturnMessage`, `LongReturnMessage`, `SessionToken` and `PaymentID` is
read through `_parse_checkout_response`, which raises `GatewayError` via
`_raise_api_error` (recording first) when the field is absent; afterwards a
falsy `Success` raises `GatewayError("Not success")`, and otherwise the
payment page URL and session token are returned. -/
def checkout_response_checks (response_data : JObj) (recs : Audit) :
    Audit × Except PyExn TransactionParameters :=
  match jGet response_data "URL" with
  | none => raise_api_error _ (missing_field_message "URL") none recs
  | some payment_page_url =>
  match jGet response_data "Success" with
  | none => raise_api_error _ (missing_field_message "Success") none recs
  | some success =>
  match jGet response_data "ReturnCode" with
  | none => raise_api_error _ (missing_field_message "ReturnCode") none recs
  | some _return_code =>
  match jGet response_data "ShortReturnMessage" with
  | none => raise_api_error _ (missing_field_message "ShortReturnMessage") none recs
  | some _short_return_message =>
  match jGet response_data "LongReturnMessage" with
  | none => raise_api_error _ (missing_field_message "LongReturnMessage") none recs
  | some _long_return_message =>
  match jGet response_data "SessionToken" with
  | none => raise_api_error _ (missing_field_message "SessionToken") none recs
  | some session_token =>
  match jGet response_data "PaymentID" with
  | none => raise_api_error _ (missing_field_message "PaymentID") none recs
  | some _payment_id =>
  if !jTruthy success then
    raise_api_error _ "Not success" none recs
  else
    (recs, .ok { payment_page_url := payment_page_url, session_token := session_token })

/-- The seven checkout-response fields the code reads unconditionally. -/
def checkout_read_fields : List String :=
  ["URL", "Success", "ReturnCode", "ShortReturnMessage", "LongReturnMessage",
   "SessionToken", "PaymentID"]

/-! ### `PayGate.get_single_seat` and the `course_id` prelude of
`get_transaction_parameters` (processors.py lines 245-265, 395-412) -/

/-- A basket line's product. -/
structure Product where
  title : String
  product_class : String
  course_id : String
deriving DecidableEq, Repr

/-- `PayGate.get_single_seat`: `None` when the `seat` product class does not
exist; otherwise the first basket line whose product has that class. -/
def get_single_seat (seat_class_exists : Bool) (basket_lines : List Product) :
    Option Product :=
  if !seat_class_exists then none
  else basket_lines.find? (fun p => p.product_class == "seat")

/-- Lines 252-265 of `get_transaction_parameters`: `course_id` is assigned
only inside `if single_seat:`, and the following `if course_id:` guard reads
it unconditionally — when `get_single_seat` returned `None`, Python raises
`UnboundLocalError` there. -/
def callback_server_parms (single_seat : Option Product) :
    Except PyExn (List (String × String)) :=
  let course_id : Option String :=
    match single_seat with
    | some seat => some seat.course_id
    | none => none
  match course_id with
  | none => .error (.unboundLocalError "course_id")
  | some cid =>
    .ok (if cid ≠ "" then [("course_id", cid)] else [])

/-! ### `PayGate.retry_baskets_payed_in_paygate` (processors.py lines 612-676) -/

/-- The default of the `next_rows` keyword parameter of
`retry_baskets_payed_in_paygate`. -/
def retry_baskets_default_next_rows : Nat := 100

/-- The environment the reconciliation sweep runs against: the gateway
(a page of completed transactions for each requested offset), the basket
store and the order store. -/
structure SweepEnv where
  gw : Nat → List Txn
  basket_from_payment_ref : Option String → Option String
  order_exist : String → Bool

/-- The per-row body of the sweep loop (processors.py lines 654-668): resolve
the payment reference to a basket, skip when no basket is found or an order
already exists, otherwise send the self-notification retry callback.
Returns the references retried. -/
def sweep_process_rows (env : SweepEnv) (rows : List Txn) : List String :=
  rows.filterMap fun t =>
    match env.basket_from_payment_ref t.PAYMENT_REF with
    | none => none
    | some order_number =>
      if env.order_exist order_number then none
      else some order_number

/-- `retry_baskets_payed_in_paygate`: fetch the page at `offset_rows`,
process its rows, and recurse at `offset_rows + next_rows` exactly when the
page length equals `next_rows`.  The Python recursion carries no bound, so
the embedding uses explicit `fuel`; `some (fetches, retried)` means the sweep
completed within `fuel` page fetches. -/
def retry_baskets_payed_in_paygate (env : SweepEnv) (offset_rows next_rows : Nat)
    (fuel : Nat) : Option (Nat × List String) :=
  match fuel with
  | 0 => none
  | fuel + 1 =>
    let response_data := env.gw offset_rows
    let retried := sweep_process_rows env response_data
    if response_data.length = next_rows then
      match retry_baskets_payed_in_paygate env (offset_rows + next_rows) next_rows fuel with
      | none => none
      | some (n, rs) => some (n + 1, retried ++ rs)
    else
      some (1, retried)

/-! ### `PayGate.mark_test_payment_as_paid` (processors.py lines 710-735) -/

/-- `True` for the exceptions caught by `except GatewayError`. -/
def isGatewayError : PyExn → Bool
  | .gatewayError _ _ => true
  | _ => false

/-- `PayGate.mark_test_payment_as_paid`: call `MarkTestPaymentAsPaid` through
`_make_api_json_request`; return `True` on success, catch `GatewayError` and
return `False`.  Only `GatewayError` is caught, so any other exception from
the call propagates. -/
def mark_test_payment_as_paid (order_number : String) (beh : HttpBehavior)
    (recs : Audit) : Audit × Except PyExn Bool :=
  match make_api_json_request (some order_number) beh recs with
  | (recs', .ok _) => (recs', .ok true)
  | (recs', .error e) =>
    if isGatewayError e then (recs', .ok false) else (recs', .error e)

/-! ### `paygate/views.py` — `PaygateCallbackServerResponseView.post` -/

/-- What the view sees of a basket: its id, its order number
(the purchase reference), and whether `hasattr(basket, "order")` holds. -/
structure Basket where
  id : Nat
  order_number : String
  has_order : Bool
deriving DecidableEq, Repr

/-- `GatewayError` subclasses Oscar's `PaymentError`, so `except PaymentError`
catches both. -/
def isPaymentError : PyExn → Bool
  | .gatewayError _ _ => true
  | .paymentError => true
  | _ => false

/-- Modelled from the spec: `EdxOrderPlacementMixin.handle_payment` is
host-framework code not under `src/`; per the spec the server callback
"Delegates to ReconciliationEngine.confirmPaid", i.e. it invokes the
processor's `handle_processor_response` for the basket (which first reads
`basket.order_number`, raising `AttributeError` when the basket is `None`).
The gateway transport is assumed to succeed, returning `search` rows. -/
def handle_payment (cfg : PayGateConfig) (basket : Option Basket)
    (currency : String) (search : List Txn) : Except PyExn Unit :=
  match basket with
  | none => .error (.attributeError "NoneType object has no attribute order-number")
  | some b =>
    match handle_processor_response cfg b.order_number currency search with
    | .ok _ => .ok ()
    | .error e => .error e

/-- The environment a server callback executes in. -/
structure CallbackWorld where
  cfg : PayGateConfig
  /-- the `callback_server_allowed_networks` configuration (`None` = absent) -/
  callback_server_allowed_networks : Option (List String)
  /-- resolving the payload's `payment_ref` through
  `OrderNumberGenerator().basket_id` and `_get_basket` -/
  basket : Option Basket
  /-- rows the gateway search returns for this purchase reference -/
  search : List Txn
  currency : String
  /-- whether `create_order` raises (billing-address copy or order placement) -/
  order_creation_fails : Bool

/-- An inbound HTTP POST as the view sees it: the forwarding headers and the
body (`none` when `json.loads(request.body)` would fail). -/
structure HttpRequest where
  x_forwarded_for : Option String
  remote_addr : String
  body : Option JObj
deriving Repr

/-- The observable outcome of one view invocation: either an HTTP response
produced by the handler, or an exception that escaped it (Django then renders
a 500 server error). -/
inductive ViewOutcome where
  | response (status : Nat) (body : String)
  | raised (e : PyExn)
deriving DecidableEq, Repr

/-- Effects of one server-callback POST: the outcome, how many orders the
handler created, and whether the gateway double-check call was made. -/
structure PostEffects where
  outcome : ViewOutcome
  orders_created : Nat
  gateway_called : Bool
deriving DecidableEq, Repr

/-- views.py lines 184-242: everything after the IP gate.
`get_basket_and_record_response` returns `(None, None)` when the payload has
no truthy `payment_ref`, after which line 189 dereferences
`payment_processor_response.response` and raises `AttributeError`.  With a
reference present, the `success`/`statusCode` check gates a 412; then
`handle_payment` runs inside `transaction.atomic` with `PaymentError` and
bare `except` handlers (which log `basket.id`, re-raising `AttributeError`
when the basket is `None`); finally the order branch at lines 218-242 runs
exactly as written: the `create_order` call sits in the `else` of
`if not hasattr(basket, "order")`. -/
def server_callback_after_ip_gate (w : CallbackWorld) (req : HttpRequest) :
    PostEffects :=
  match req.body with
  | none => ⟨.raised (.valueError "Expecting value"), 0, false⟩
  | some payload =>
    if !jOptTruthy (jGet payload "payment_ref") then
      ⟨.raised (.attributeError "NoneType object has no attribute response"), 0, false⟩
    else
      let payed_with_success :=
        jTruthy (jGetD payload "success" (.bool false)) &&
        (jGetD payload "statusCode" (.str "") == JVal.str "C")
      if !payed_with_success then
        ⟨.response 412 "Incorrect success and status code", 0, false⟩
      else
        match handle_payment w.cfg w.basket w.currency w.search with
        | .error e =>
          (match w.basket with
           | none => ⟨.raised (.attributeError "NoneType object has no attribute id"), 0, false⟩
           | some _ =>
             if isPaymentError e then
               ⟨.response 500 "Error while handling payment - payment error", 0, true⟩
             else
               ⟨.response 500 "Error while handling payment - other error", 0, true⟩)
        | .ok _ =>
          match w.basket with
          | none => ⟨.raised (.attributeError "NoneType object has no attribute id"), 0, false⟩
          | some b =>
            if !b.has_order then
              -- lines 219-225: logs "the basket already has an order" and
              -- falls through to the 200 acknowledgement without creating one
              ⟨.response 200 "Received server callback with success", 0, true⟩
            else
              -- lines 226-240: create an order for the basket
              if w.order_creation_fails then
                ⟨.response 500 "Error while creating order", 0, true⟩
              else
                ⟨.response 200 "Received server callback with success", 1, true⟩

/-- `PaygateCallbackServerResponseView.post` (views.py lines 157-242).
Lines 172-181: when `callback_server_allowed_networks` is truthy,
`allowed_client_ip(get_client_ip(request), allowed_networks)` decides a 401;
an exception it raises escapes the handler.  When the configuration is absent
or empty a security warning is logged and processing proceeds. -/
def server_callback_post (w : CallbackWorld) (req : HttpRequest) : PostEffects :=
  match w.callback_server_allowed_networks with
  | none => server_callback_after_ip_gate w req
  | some nets =>
    if nets = [] then server_callback_after_ip_gate w req
    else
      match allowed_client_ip (get_client_ip req.x_forwarded_for req.remote_addr) nets with
      | .error e => ⟨.raised e, 0, false⟩
      | .ok v =>
        if !pyTruthy v then
          ⟨.response 401 "Unauthorized invalid allowed ip address", 0, false⟩
        else server_callback_after_ip_gate w req

/-! ### Concrete fixtures for the claim theorems -/

/-- A PayGate configuration matching the repository's test settings. -/
def cfgEx : PayGateConfig := { access_token := "PwdX-XXXX-YYYY", merchant_code := "NAU" }

/-- A completed gateway transaction for purchase reference `EDX-100001`. -/
def txnEx : Txn :=
  { MERCHANT_CODE := some "NAU", STATUS_CODE := some "C",
    PAYMENT_REF := some "EDX-100001", PAYMENT_AMOUNT := some "20.00",
    TRANSACTION_ID := some "EDX-100001", CARD_MASKED_PAN := some "1234",
    PAYMENT_TYPE_CODE := some "REFMB" }

/-- The server-callback payload of a confirmed payment. -/
def confirmedPayload : JObj :=
  [("payment_ref", .str "EDX-100001"), ("success", .bool true), ("statusCode", .str "C")]

/-- A server-callback POST carrying `confirmedPayload`. -/
def confirmedRequest : HttpRequest :=
  { x_forwarded_for := none, remote_addr := "127.0.0.1", body := some confirmedPayload }

/-- A world with no IP allow-list, a basket without an order, and a gateway
that confirms the payment with exactly one matching completed transaction. -/
def worldNoOrder : CallbackWorld :=
  { cfg := cfgEx, callback_server_allowed_networks := none,
    basket := some ⟨1, "EDX-100001", false⟩, search := [txnEx],
    currency := "EUR", order_creation_fails := false }

/-! ### Claim theorems -/

/-- **C3** (code bug): `allowed_client_ip` never returns a boolean — for every
input, `filter(...) is not None` evaluates to the boolean `True` and
`next(True)` raises `TypeError` — so on the repository's own test inputs
(one where the IP is in the list and one where it is not, where the tests
expect `True` resp. `False`) the call raises instead of returning. -/
theorem c3_allowed_client_ip_always_raises :
    allowed_client_ip "143.0.213.123"
        ["143.0.213.122", "143.0.213.123", "143.0.213.124"] =
      .error (.typeError "bool object is not an iterator") ∧
    allowed_client_ip "143.0.213.123" ["192.168.1.0/24"] =
      .error (.typeError "bool object is not an iterator") :=
  ⟨rfl, rfl⟩

/-- **C1** (code bug): the order-creation condition in
`PaygateCallbackServerResponseView.post` is inverted.  For a confirmed
payment on a basket with **no** existing order the handler answers 200 but
creates **zero** orders (first conjunct), while for a basket that **already**
has an order it attempts to create **another** one (second conjunct) —
the opposite of the claimed idempotent behaviour. -/
theorem c1_order_creation_branch_inverted :
    server_callback_post worldNoOrder confirmedRequest =
      { outcome := .response 200 "Received server callback with success",
        orders_created := 0, gateway_called := true } ∧
    server_callback_post
        { worldNoOrder with basket := some ⟨1, "EDX-100001", true⟩ }
        confirmedRequest =
      { outcome := .response 200 "Received server callback with success",
        orders_created := 1, gateway_called := true } := by
  exact ⟨by decide, by decide⟩

/-- **C4** (code bug): a server-callback POST whose JSON payload lacks
`payment_ref` does not get the claimed 412 — `get_basket_and_record_response`
returns `(None, None)` and the handler then dereferences
`payment_processor_response.response`, raising `AttributeError` (Django: 500).
No order is created. -/
theorem c4_missing_payment_ref_raises_attribute_error :
    server_callback_post { worldNoOrder with basket := none, search := [] }
        { x_forwarded_for := none, remote_addr := "127.0.0.1", body := some [] } =
      { outcome := .raised (.attributeError "NoneType object has no attribute response"),
        orders_created := 0, gateway_called := false } := by
  decide

/-- **C5** (code bug): when an IP allow-list is configured the view never
answers 401 — `allowed_client_ip` raises `TypeError` for every caller, so
the exception escapes the handler (500) with no gateway call and no order
(first conjunct, the repository test's configuration `["10.0.10.1"]`);
when no allow-list is configured, processing does proceed past the gate
(second conjunct reaches the payload check). -/
theorem c5_allow_list_gate_raises_instead_of_401 :
    server_callback_post
        { worldNoOrder with callback_server_allowed_networks := some ["10.0.10.1"] }
        confirmedRequest =
      { outcome := .raised (.typeError "bool object is not an iterator"),
        orders_created := 0, gateway_called := false } ∧
    server_callback_post worldNoOrder
        { confirmedRequest with body := some [("payment_ref", .str "EDX-100001")] } =
      { outcome := .response 412 "Incorrect success and status code",
        orders_created := 0, gateway_called := false } := by
  exact ⟨by decide, by decide⟩

/-- **C2** (confirmed): `handle_processor_response` searches by purchase
reference with status `"C"` requesting at most 2 rows, and confirms the
payment only when exactly one returned transaction matches the merchant
code, status `"C"` and the basket's order number; any other result — zero
rows, two rows, or a field mismatch — raises `GatewayError`. -/
theorem c2_confirm_requires_exactly_one_match (cfg : PayGateConfig)
    (ref currency : String) (rows : List Txn) :
    (back_search_transactions_data cfg ref).STATUS_CODE = "C" ∧
    (back_search_transactions_data cfg ref).NEXT_ROWS = 2 ∧
    (back_search_transactions_data cfg ref).PAYMENT_REF = ref ∧
    (isOk (handle_processor_response cfg ref currency rows) = true →
      ∃ t, rows = [t] ∧ t.MERCHANT_CODE = some cfg.merchant_code ∧
        t.STATUS_CODE = some "C" ∧ t.PAYMENT_REF = some ref) ∧
    ((¬ ∃ t, rows = [t] ∧ t.MERCHANT_CODE = some cfg.merchant_code ∧
        t.STATUS_CODE = some "C" ∧ t.PAYMENT_REF = some ref) →
      handle_processor_response cfg ref currency rows =
        .error (.gatewayError "PayGate couldnt double check if basket has been payed" none)) := by
  refine ⟨rfl, rfl, rfl, ?_, ?_⟩
  · intro hok
    cases rows with
    | nil => exact absurd hok (by simp [handle_processor_response, isOk])
    | cons t rest =>
      cases rest with
      | cons u rest2 => exact absurd hok (by simp [handle_processor_response, isOk])
      | nil =>
        refine ⟨t, rfl, ?_⟩
        by_cases h1 : t.MERCHANT_CODE = some cfg.merchant_code
        · by_cases h2 : t.STATUS_CODE = some "C"
          · by_cases h3 : t.PAYMENT_REF = some ref
            · exact ⟨h1, h2, h3⟩
            · exact absurd hok (by simp [handle_processor_response, isOk, h1, h2, h3])
          · exact absurd hok (by simp [handle_processor_response, isOk, h1, h2])
        · exact absurd hok (by simp [handle_processor_response, isOk, h1])
  · intro hne
    cases rows with
    | nil => rfl
    | cons t rest =>
      cases rest with
      | cons u rest2 => rfl
      | nil =>
        have h : ¬(t.MERCHANT_CODE = some cfg.merchant_code ∧
            t.STATUS_CODE = some "C" ∧ t.PAYMENT_REF = some ref) :=
          fun hc => hne ⟨t, rfl, hc⟩
        by_cases h1 : t.MERCHANT_CODE = some cfg.merchant_code
        · by_cases h2 : t.STATUS_CODE = some "C"
          · by_cases h3 : t.PAYMENT_REF = some ref
            · exact absurd ⟨h1, h2, h3⟩ h
            · simp [handle_processor_response, h1, h2, h3]
          · simp [handle_processor_response, h1, h2]
        · simp [handle_processor_response, h1]

/-- Witness for C2: two rows that would each individually satisfy the
merchant-code, status and reference checks are still rejected. -/
theorem c2_witness :
    handle_processor_response cfgEx "EDX-100001" "EUR" [txnEx, txnEx] =
      .error (.gatewayError "PayGate couldnt double check if basket has been payed" none) := by
  refine (c2_confirm_requires_exactly_one_match cfgEx "EDX-100001" "EUR"
    [txnEx, txnEx]).2.2.2.2 ?_
  rintro ⟨t, ht, -⟩
  simp at ht

/-- A checkout response containing exactly the fields the claim calls
required (`URL`, a truthy `Success`, `SessionToken`). -/
def checkoutRespMinimal : JObj :=
  [("URL", .str "https://frontend-test.optimistic.blue/pay"),
   ("Success", .bool true),
   ("SessionToken", .str "A-TOKEN")]

/-- **C6** counterexample: a checkout response carrying a payment-page URL,
`Success == true` and a session token — everything the claim says is
required — still fails, because `get_transaction_parameters` also parses
`ReturnCode`, the return messages and `PaymentID` through
`_parse_checkout_response`, which raises on absence. -/
theorem c6_counterexample_more_fields_required :
    (checkout_response_checks checkoutRespMinimal []).2 =
      .error (.gatewayError (missing_field_message "ReturnCode") none) := rfl

/-- **C6** (amended): absence of a truthy `Success` is a hard failure
(`GatewayError "Not success"`) raised after recording; but all seven read
fields — `URL`, `Success`, `ReturnCode`, `ShortReturnMessage`,
`LongReturnMessage`, `SessionToken`, `PaymentID` — are required, and the
absence of any one of them raises `GatewayError` (after recording) as well. -/
theorem c6_all_read_fields_required (response_data : JObj) (recs : Audit) :
    ((∃ f ∈ checkout_read_fields, jGet response_data f = none) →
      ∃ m, checkout_response_checks response_data recs =
        (recs ++ [m], .error (.gatewayError m none))) ∧
    ((∀ f ∈ checkout_read_fields, (jGet response_data f).isSome) →
      (jTruthy (jGetD response_data "Success" .null) = false →
        checkout_response_checks response_data recs =
          (recs ++ ["Not success"], .error (.gatewayError "Not success" none))) ∧
      (jTruthy (jGetD response_data "Success" .null) = true →
        isOk (checkout_response_checks response_data recs).2 = true ∧
        (checkout_response_checks response_data recs).1 = recs)) := by
  rcases hU : jGet response_data "URL" with _ | u
  · refine ⟨fun _ => ⟨missing_field_message "URL",
      by simp [checkout_response_checks, raise_api_error, hU]⟩, fun hall => ?_⟩
    have := hall "URL" (by simp [checkout_read_fields])
    rw [hU] at this; exact absurd this (by simp)
  rcases hS : jGet response_data "Success" with _ | s
  · refine ⟨fun _ => ⟨missing_field_message "Success",
      by simp [checkout_response_checks, raise_api_error, hU, hS]⟩, fun hall => ?_⟩
    have := hall "Success" (by simp [checkout_read_fields])
    rw [hS] at this; exact absurd this (by simp)
  rcases hR : jGet response_data "ReturnCode" with _ | r
  · refine ⟨fun _ => ⟨missing_field_message "ReturnCode",
      by simp [checkout_response_checks, raise_api_error, hU, hS, hR]⟩, fun hall => ?_⟩
    have := hall "ReturnCode" (by simp [checkout_read_fields])
    rw [hR] at this; exact absurd this (by simp)
  rcases hSh : jGet response_data "ShortReturnMessage" with _ | sh
  · refine ⟨fun _ => ⟨missing_field_message "ShortReturnMessage",
      by simp [checkout_response_checks, raise_api_error, hU, hS, hR, hSh]⟩, fun hall => ?_⟩
    have := hall "ShortReturnMessage" (by simp [checkout_read_fields])
    rw [hSh] at this; exact absurd this (by simp)
  rcases hL : jGet response_data "LongReturnMessage" with _ | lo
  · refine ⟨fun _ => ⟨missing_field_message "LongReturnMessage",
      by simp [checkout_response_checks, raise_api_error, hU, hS, hR, hSh, hL]⟩, fun hall => ?_⟩
    have := hall "LongReturnMessage" (by simp [checkout_read_fields])
    rw [hL] at this; exact absurd this (by simp)
  rcases hT : jGet response_data "SessionToken" with _ | tk
  · refine ⟨fun _ => ⟨missing_field_message "SessionToken",
      by simp [checkout_response_checks, raise_api_error, hU, hS, hR, hSh, hL, hT]⟩, fun hall => ?_⟩
    have := hall "SessionToken" (by simp [checkout_read_fields])
    rw [hT] at this; exact absurd this (by simp)
  rcases hP : jGet response_data "PaymentID" with _ | pid
  · refine ⟨fun _ => ⟨missing_field_message "PaymentID",
      by simp [checkout_response_checks, raise_api_error, hU, hS, hR, hSh, hL, hT, hP]⟩,
      fun hall => ?_⟩
    have := hall "PaymentID" (by simp [checkout_read_fields])
    rw [hP] at this; exact absurd this (by simp)
  · refine ⟨fun ⟨f, hf, hnone⟩ => ?_, fun _ => ⟨fun hfalse => ?_, fun htrue => ?_⟩⟩
    · simp [checkout_read_fields] at hf
      rcases hf with rfl | rfl | rfl | rfl | rfl | rfl | rfl <;>
        simp_all
    · have hs : jGetD response_data "Success" .null = s := by simp [jGetD, hS]
      rw [hs] at hfalse
      simp [checkout_response_checks, raise_api_error, hU, hS, hR, hSh, hL, hT, hP, hfalse]
    · have hs : jGetD response_data "Success" .null = s := by simp [jGetD, hS]
      rw [hs] at htrue
      simp [checkout_response_checks, isOk, hU, hS, hR, hSh, hL, hT, hP, htrue]

/-- Witness for C6: a response with all seven fields but `Success == false`
is recorded and then rejected with `GatewayError("Not success")`. -/
theorem c6_witness :
    checkout_response_checks
      [("URL", .str "https://pay"), ("Success", .bool false),
       ("ReturnCode", .str "X"), ("ShortReturnMessage", .str "s"),
       ("LongReturnMessage", .str "l"), ("SessionToken", .str "tok"),
       ("PaymentID", .num 1234)] [] =
      (["Not success"], .error (.gatewayError "Not success" none)) := by
  exact ((c6_all_read_fields_required _ []).2 (by decide)).1 (by decide)

/-- **C7** (confirmed): `_make_api_json_request` turns a timeout into
`GatewayError("API timeout")`, an unparseable body into
`GatewayError("Could not parse JSON content from response")`, and a non-200
status into `GatewayError("Invalid API response")` carrying the status code,
raw body and parsed payload; each error path appends a processor-response
record before the error is surfaced, and a 200 response with a JSON body
returns the parsed payload. -/
theorem c7_make_api_json_request_error_paths (basketRef : Option String)
    (recs : Audit) (status : Nat) (raw : String) (d : ApiPayload) :
    (make_api_json_request basketRef .timeout recs =
      ((if basketRef.isSome then recs ++ ["request"] else recs) ++ ["API timeout"],
        .error (.gatewayError "API timeout" none))) ∧
    (make_api_json_request basketRef (.response status none raw) recs =
      ((if basketRef.isSome then recs ++ ["request"] else recs) ++
          ["Could not parse JSON content from response"],
        .error (.gatewayError "Could not parse JSON content from response"
          (some ⟨status, raw, some (.obj [])⟩)))) ∧
    (status ≠ 200 →
      make_api_json_request basketRef (.response status (some d) raw) recs =
        ((if basketRef.isSome then recs ++ ["request"] else recs) ++
            ["Invalid API response"],
          .error (.gatewayError "Invalid API response" (some ⟨status, raw, some d⟩)))) ∧
    (make_api_json_request basketRef (.response 200 (some d) raw) recs =
      ((if basketRef.isSome then recs ++ ["request"] else recs), .ok d)) := by
  refine ⟨rfl, rfl, fun h => ?_, by simp [make_api_json_request]⟩
  simp [make_api_json_request, raise_api_error, h]

/-- Witness for C7: a 404 with a JSON body yields `GatewayError("Invalid API
response")` carrying status, body and payload, recorded after the request
record. -/
theorem c7_witness :
    make_api_json_request (some "EDX-100001") (.response 404 (some (.obj [])) "Not Found") [] =
      (["request", "Invalid API response"],
        .error (.gatewayError "Invalid API response" (some ⟨404, "Not Found", some (.obj [])⟩))) := by
  have h := (c7_make_api_json_request_error_paths (some "EDX-100001") [] 404
    "Not Found" (.obj [])).2.2.1 (by decide)
  simpa using h

/-- **C8** (confirmed): the reconciliation sweep pages with configurable page
size (parameter default 100) and fetches a further page exactly when the
current page holds exactly `next_rows` rows; with a full first page and a
short second page it makes exactly one additional fetch and terminates,
independently of the remaining fuel. -/
theorem c8_sweep_pagination (env : SweepEnv) (offset next_rows fuel : Nat) :
    retry_baskets_default_next_rows = 100 ∧
    ((env.gw offset).length ≠ next_rows →
      retry_baskets_payed_in_paygate env offset next_rows (fuel + 1) =
        some (1, sweep_process_rows env (env.gw offset))) ∧
    ((env.gw offset).length = next_rows →
      retry_baskets_payed_in_paygate env offset next_rows (fuel + 1) =
        (match retry_baskets_payed_in_paygate env (offset + next_rows) next_rows fuel with
         | none => none
         | some (n, rs) => some (n + 1, sweep_process_rows env (env.gw offset) ++ rs))) ∧
    ((env.gw offset).length = next_rows →
      (env.gw (offset + next_rows)).length ≠ next_rows →
      retry_baskets_payed_in_paygate env offset next_rows (fuel + 2) =
        some (2, sweep_process_rows env (env.gw offset) ++
          sweep_process_rows env (env.gw (offset + next_rows)))) := by
  refine ⟨rfl, fun h => ?_, fun h => ?_, fun h1 h2 => ?_⟩
  · simp [retry_baskets_payed_in_paygate, h]
  · simp [retry_baskets_payed_in_paygate, h]
  · show retry_baskets_payed_in_paygate env offset next_rows (fuel + 1 + 1) = _
    simp [retry_baskets_payed_in_paygate, h1, h2]

/-- A sweep environment whose gateway returns a full page of 2 rows at
offset 0 and an empty page afterwards. -/
def sweepEnvEx : SweepEnv :=
  { gw := fun o => if o = 0 then [txnEx, txnEx] else []
    basket_from_payment_ref := fun r => r
    order_exist := fun _ => false }

/-- Witness for C8: over `sweepEnvEx` with page size 2 the sweep makes
exactly 2 page fetches (one additional) and terminates with fuel to spare. -/
theorem c8_witness :
    retry_baskets_payed_in_paygate sweepEnvEx 0 2 5 =
      some (2, ["EDX-100001", "EDX-100001"]) := by
  have h := (c8_sweep_pagination sweepEnvEx 0 2 3).2.2.2 (by decide) (by decide)
  exact h.trans (by decide)

/-- **C9** counterexample: `mark_test_payment_as_paid` does raise on a
connection failure — `_make_api_json_request` only catches
`requests.exceptions.Timeout`, so a `ConnectionError` is not converted to
`GatewayError` and escapes the `except GatewayError` handler. -/
theorem c9_counterexample_connection_failure_raises :
    mark_test_payment_as_paid "EDX-100001" .connectionFailure [] =
      (["request"], .error .connectionError) := rfl

/-- **C9** (amended): for every gateway behaviour other than a connection
failure, `mark_test_payment_as_paid` never raises: it returns `true` exactly
on an HTTP 200 with a JSON body, and `false` on timeout, unparseable body or
non-200 status (all swallowed `GatewayError`s); a connection failure
propagates as an exception. -/
theorem c9_bool_except_connection_failure (order_number : String)
    (recs : Audit) (beh : HttpBehavior) :
    (beh ≠ .connectionFailure →
      (mark_test_payment_as_paid order_number beh recs).2 = .ok true ∨
      (mark_test_payment_as_paid order_number beh recs).2 = .ok false) ∧
    (∀ d raw, (mark_test_payment_as_paid order_number (.response 200 (some d) raw) recs).2 =
      .ok true) ∧
    ((mark_test_payment_as_paid order_number .timeout recs).2 = .ok false) ∧
    (∀ status raw, (mark_test_payment_as_paid order_number (.response status none raw) recs).2 =
      .ok false) ∧
    (∀ status d raw, status ≠ 200 →
      (mark_test_payment_as_paid order_number (.response status (some d) raw) recs).2 =
        .ok false) ∧
    ((mark_test_payment_as_paid order_number .connectionFailure recs).2 =
      .error .connectionError) := by
  refine ⟨fun hne => ?_, fun d raw => ?_, ?_, fun status raw => ?_, fun status d raw h => ?_, ?_⟩
  · cases beh with
    | timeout =>
      right
      simp [mark_test_payment_as_paid, make_api_json_request, raise_api_error, isGatewayError]
    | connectionFailure => exact absurd rfl hne
    | response status body raw =>
      cases body with
      | none =>
        right
        simp [mark_test_payment_as_paid, make_api_json_request, raise_api_error, isGatewayError]
      | some d =>
        by_cases h : status = 200
        · left
          simp [mark_test_payment_as_paid, make_api_json_request, raise_api_error,
            isGatewayError, h]
        · right
          simp [mark_test_payment_as_paid, make_api_json_request, raise_api_error,
            isGatewayError, h]
  · simp [mark_test_payment_as_paid, make_api_json_request, raise_api_error, isGatewayError]
  · simp [mark_test_payment_as_paid, make_api_json_request, raise_api_error, isGatewayError]
  · simp [mark_test_payment_as_paid, make_api_json_request, raise_api_error, isGatewayError]
  · simp [mark_test_payment_as_paid, make_api_json_request, raise_api_error, isGatewayError, h]
  · simp [mark_test_payment_as_paid, make_api_json_request, raise_api_error, isGatewayError]

/-- Witness for C9: a timeout is swallowed into a boolean result. -/
theorem c9_witness :
    (mark_test_payment_as_paid "EDX-100001" HttpBehavior.timeout []).2 = .ok true ∨
    (mark_test_payment_as_paid "EDX-100001" HttpBehavior.timeout []).2 = .ok false :=
  (c9_bool_except_connection_failure "EDX-100001" [] .timeout).1 (by decide)

/-- **C10** (confirmed): when `get_single_seat` returns `None` the
`course_id` local of `get_transaction_parameters` is never assigned and the
`if course_id:` guard raises `UnboundLocalError`; with a seat product the
guard evaluates and the callback-server parameters are produced. -/
theorem c10_course_id_unbound_without_seat (seat_class_exists : Bool)
    (basket_lines : List Product) :
    (get_single_seat seat_class_exists basket_lines = none →
      callback_server_parms (get_single_seat seat_class_exists basket_lines) =
        .error (.unboundLocalError "course_id")) ∧
    (∀ p, get_single_seat seat_class_exists basket_lines = some p →
      callback_server_parms (get_single_seat seat_class_exists basket_lines) =
        .ok (if p.course_id ≠ "" then [("course_id", p.course_id)] else [])) := by
  constructor
  · intro h; rw [h]; rfl
  · intro p h; rw [h]; rfl

/-- Witness for C10: a basket whose only line is a non-seat product makes
`get_transaction_parameters` raise `UnboundLocalError` at the guard. -/
theorem c10_witness :
    callback_server_parms (get_single_seat true [⟨"T-shirt", "merchandise", ""⟩]) =
      .error (.unboundLocalError "course_id") :=
  (c10_course_id_unbound_without_seat true [⟨"T-shirt", "merchandise", ""⟩]).1 (by decide)

end Paygate
